import Mathlib

/-!
Verification of the cart/catalog engine of `ecommerce_telegram_bot.py`.

The Python source is shallowly embedded: dataclasses become structures,
`Decimal` becomes `ℚ` (exact arithmetic, as `Decimal` is exact for the
operations the code performs), Python `int` becomes `ℤ`, `None`-able
fields become `Option`, and code that can raise a Python exception
returns `Except PyError`.  Mutation of the per-user item list is
modelled by explicit state passing: each cart operation takes the
current `List CartItem` and returns the new one.
-/

/-- Python exceptions that the embedded code can raise. -/
inductive PyError where
  | typeError (msg : String)
  | attributeError (msg : String)
  | zeroDivisionError
  | indexError
  deriving DecidableEq, Repr

deriving instance DecidableEq for Except

/-- Python list indexing `l[i]` for `int` indexes: negative indexes count
from the end, out-of-range raises `IndexError`. -/
def pyListGet {α : Type} (l : List α) (i : Int) : Except PyError α :=
  let j : Int := if i < 0 then i + l.length else i
  if 0 ≤ j then
    match l.get? j.toNat with
    | some a => Except.ok a
    | none => Except.error PyError.indexError
  else Except.error PyError.indexError

/-- Index normalisation of Python slicing `l[a:b]` (step 1): a negative
bound counts from the end, then both bounds are clamped into `[0, len]`. -/
def pySliceIndex (len : Nat) (i : Int) : Nat :=
  let j : Int := if i < 0 then (len : Int) + i else i
  (max 0 (min j (len : Int))).toNat

/-- Python slicing `l[a:b]` with step 1. -/
def pySlice {α : Type} (l : List α) (a b : Int) : List α :=
  (l.take (pySliceIndex l.length b)).drop (pySliceIndex l.length a)

/-- Python floor division `//` on ints. -/
def pyFloorDiv (a b : Int) : Int :=
  Int.fdiv a b

/-- Floor of a rational, computed from its reduced fraction. -/
def ratFloor (x : Rat) : Int :=
  Int.fdiv x.num x.den

/-- Python `round(x)` on an exact number: round half to even. -/
def pyRound (x : Rat) : Int :=
  let n : Int := ratFloor x
  let frac : Rat := x - (n : Rat)
  if frac < 1/2 then n
  else if (1/2 : Rat) < frac then n + 1
  else if n % 2 = 0 then n else n + 1

/-- Bool version of the Python membership test `needle in haystack` for
lists of characters: `pyCharsContain needle hay`. -/
def pyStartsWith : List Char → List Char → Bool
  | [], _ => true
  | _ :: _, [] => false
  | a :: as, b :: bs => a == b && pyStartsWith as bs

def pyCharsContain (needle : List Char) : List Char → Bool
  | [] => needle.isEmpty
  | c :: cs => pyStartsWith needle (c :: cs) || pyCharsContain needle cs

/-- Python `needle in hay` on strings. -/
def pyStrContains (hay needle : String) : Bool :=
  pyCharsContain needle.toList hay.toList

/-- Python `s.lower()`. -/
def pyLower (s : String) : String :=
  String.map Char.toLower s

/-! ## Data model (dataclasses of the source) -/

/-- `ProductVariant` dataclass. -/
structure ProductVariant where
  id : Int
  title : String
  stock : Int
  image_url : Option String
  deriving DecidableEq, Repr

/-- `ProductCategory` dataclass (field order as in the source:
`id, name, parent_id, product_ids, subcategory_ids`). -/
structure ProductCategory where
  id : Int
  name : String
  parent_id : Option Int
  product_ids : Option (List Int)
  subcategory_ids : Option (List Int)
  deriving DecidableEq, Repr

/-- `Product` dataclass. -/
structure Product where
  id : Int
  name : String
  category_id : Int
  price : Rat
  stock : Int
  description : Option String
  discount : Option Rat
  variants : Option (List ProductVariant)
  image_urls : Option (List String)
  is_digital_product : Bool
  deriving DecidableEq, Repr

/-- `Product.has_variants`: `variants is not None and len(variants) != 0`. -/
def Product.has_variants (p : Product) : Bool :=
  match p.variants with
  | none => false
  | some vs => decide (vs.length ≠ 0)

/-- Loop of `Product.get_variant_title`: first variant with the given id. -/
def findVariantTitle : List ProductVariant → Int → Option String
  | [], _ => none
  | v :: vs, vid => if v.id = vid then some v.title else findVariantTitle vs vid

/-- `Product.get_variant_title`: `None` when `variants` is falsy, otherwise
the title of the first variant whose id matches (or `None`). -/
def Product.get_variant_title (p : Product) (variant_id : Int) : Option String :=
  match p.variants with
  | none => none
  | some vs => findVariantTitle vs variant_id

/-- `CartItem` dataclass. -/
structure CartItem where
  product_id : Int
  name : String
  unit_price : Rat
  quantity : Int
  discount : Option Rat
  variant_id : Option Int
  variant_title : Option String
  deriving DecidableEq, Repr

/-- `ProductSearchResultsPage` dataclass.  `page_size` is `Option Int`
because `browse_products` can store a raw `None` page size in it. -/
structure ProductSearchResultsPage where
  products : List Product
  page_num : Int
  page_size : Option Int
  total : Int
  deriving DecidableEq, Repr

/-- `ProductSearchResultsPage.num_pages` = `total // page_size`.
Evaluating it on a page whose `page_size` is `0` raises
`ZeroDivisionError`, and on `None` raises `TypeError`. -/
def ProductSearchResultsPage.num_pages (p : ProductSearchResultsPage) :
    Except PyError Int :=
  match p.page_size with
  | none => Except.error (PyError.typeError "unsupported operand types for floor division: int and NoneType")
  | some ps =>
      if ps = 0 then Except.error PyError.zeroDivisionError
      else Except.ok (pyFloorDiv p.total ps)

/-- `ProductSearchResultsPage.has_next` = `page_num != num_pages`
(propagating the exception `num_pages` may raise). -/
def ProductSearchResultsPage.has_next (p : ProductSearchResultsPage) :
    Except PyError Bool :=
  match p.num_pages with
  | Except.error e => Except.error e
  | Except.ok np => Except.ok (decide (p.page_num ≠ np))

/-- `ProductSearchResultsPage.has_previous` = `page_num != 1`. -/
def ProductSearchResultsPage.has_previous (p : ProductSearchResultsPage) : Bool :=
  decide (p.page_num ≠ 1)

/-! ## Cart engine (`ShoppingCartDemo`) -/

/-- Loop of `ShoppingCartDemo._find_item_by_product_id`, carrying the
running index `i`; returns the first item (with its index) whose
`product_id` and `variant_id` both match. -/
def find_item_aux (product_id : Int) (variant_id : Option Int) (i : Nat) :
    List CartItem → Option (Nat × CartItem)
  | [] => none
  | it :: rest =>
      if it.product_id = product_id ∧ it.variant_id = variant_id then some (i, it)
      else find_item_aux product_id variant_id (i + 1) rest

/-- `ShoppingCartDemo._find_item_by_product_id(product_id, variant_id)`.
The Python triple `(found, index, item)` is `some (index, item)` / `none`. -/
def find_item_by_product_id (items : List CartItem) (product_id : Int)
    (variant_id : Option Int) : Option (Nat × CartItem) :=
  find_item_aux product_id variant_id 0 items

/-- `EcommerceDemo.get_product(product_id)` = `self._products[product_id]`. -/
def get_product (products : List Product) (product_id : Int) : Except PyError Product :=
  pyListGet products product_id

/-- `ShoppingCartDemo.add_product(product_id, variant_id, quantity)`:
merge into an existing `(product_id, variant_id)` line, else snapshot
the catalog product into a new appended line.  Returns the returned
`CartItem` together with the new item list. -/
def add_product (products : List Product) (items : List CartItem) (product_id : Int)
    (variant_id : Option Int) (quantity : Int) :
    Except PyError (CartItem × List CartItem) :=
  match find_item_by_product_id items product_id variant_id with
  | some (i, item) =>
      let updated : CartItem := { item with quantity := item.quantity + quantity }
      Except.ok (updated, items.set i updated)
  | none =>
      match get_product products product_id with
      | Except.error e => Except.error e
      | Except.ok product =>
          let variant_title : Option String :=
            match variant_id with
            | none => none
            | some vid => product.get_variant_title vid
          let item : CartItem :=
            { product_id := product_id
              name := product.name
              unit_price := product.price
              quantity := quantity
              discount := product.discount
              variant_id := variant_id
              variant_title := variant_title }
          Except.ok (item, items ++ [item])

/-- Return value of `ShoppingCartDemo.remove_product`:
`updatedItem` = the decremented line, `removedSignal` = Python `None`,
`notFoundSignal` = Python `False`. -/
inductive RemoveResult where
  | updatedItem (item : CartItem)
  | removedSignal
  | notFoundSignal
  deriving DecidableEq, Repr

/-- `ShoppingCartDemo.remove_product(product_id, variant_id, quantity)`.
If no line matches, return `False` (cart untouched).  If the quantity
of the line is `≤ quantity`, delete it and fall through to `None`.
Otherwise decrement and return the updated line (the inner
`if item.quantity != 0` of the source falls through to `None` otherwise,
with the decrement already applied). -/
def remove_product (items : List CartItem) (product_id : Int)
    (variant_id : Option Int) (quantity : Int) : RemoveResult × List CartItem :=
  match find_item_by_product_id items product_id variant_id with
  | none => (RemoveResult.notFoundSignal, items)
  | some (i, item) =>
      if item.quantity ≤ quantity then
        (RemoveResult.removedSignal, items.eraseIdx i)
      else
        let updated : CartItem := { item with quantity := item.quantity - quantity }
        if updated.quantity ≠ 0 then
          (RemoveResult.updatedItem updated, items.set i updated)
        else
          (RemoveResult.removedSignal, items.set i updated)

/-- `ShoppingCartDemo.remove_item(product_id, variant_id)`. -/
def remove_item (items : List CartItem) (product_id : Int)
    (variant_id : Option Int) : Bool × List CartItem :=
  match find_item_by_product_id items product_id variant_id with
  | some (i, _) => (true, items.eraseIdx i)
  | none => (false, items)

/-- `ShoppingCartDemo.clear()`. -/
def cart_clear (_items : List CartItem) : List CartItem :=
  []

/-- `ShoppingCartDemo.get_num_items()` = number of lines. -/
def get_num_items (items : List CartItem) : Int :=
  (items.length : Int)

/-- `ShoppingCart.get_num_products()` = sum of line quantities. -/
def get_num_products (items : List CartItem) : Int :=
  (items.map (fun it => it.quantity)).sum

/-- `ShoppingCartDemo.has_product_by_id(product_id)`: note the source calls
`_find_item_by_product_id(product_id)` with `variant_id` left at its
default `None`, so only lines with `variant_id == None` are found. -/
def has_product_by_id (items : List CartItem) (product_id : Int) : Bool :=
  (find_item_by_product_id items product_id none).isSome

/-- `ShoppingCart.has(product)`: accepts a `Product` (uses its id) or an
`int`, then delegates to `has_product_by_id`. -/
def cart_has (items : List CartItem) (x : Sum Product Int) : Bool :=
  match x with
  | Sum.inl p => has_product_by_id items p.id
  | Sum.inr pid => has_product_by_id items pid

/-- Python truthiness of the `item.discount` test in
`calculate_item_total`: `None` and `0` are both falsy. -/
def itemDiscountTruthy : Option Rat → Bool
  | none => false
  | some d => decide (d ≠ 0)

/-- `ShoppingCart.calculate_item_total(item)`:
`quantity * unit_price`, multiplied by `(1 - discount)` when the
discount is truthy. -/
def calculate_item_total (item : CartItem) : Rat :=
  let item_total : Rat := item.quantity * item.unit_price
  if itemDiscountTruthy item.discount then item_total * (1 - item.discount.getD 0)
  else item_total

/-- `ShoppingCart.calculate_total()`. -/
def calculate_total (items : List CartItem) : Rat :=
  (items.map calculate_item_total).sum

/-! ## Catalog provider (`EcommerceDemo`) -/

/-- The in-memory state of `EcommerceDemo` that `browse_products` reads:
`self._products` and `self._products_in_category`. -/
structure EcommerceDemoState where
  products : List Product
  products_in_category : List (List Int)
  deriving Repr

/-- `EcommerceDemo.get_categories(parent_id)`: with `parent_id=None` it
returns `self.categories` whole; otherwise the list comprehension keeps
the categories whose `parent_id` equals the argument. -/
def get_categories (categories : List ProductCategory) (parent_id : Option Int) :
    List ProductCategory :=
  match parent_id with
  | none => categories
  | some pid => categories.filter (fun c => c.parent_id = some pid)

/-- Query filter of `EcommerceDemo.browse_products`: case-insensitive
substring match on the name, or on the description when it is not
`None`. -/
def queryMatches (q : String) (p : Product) : Bool :=
  pyStrContains (pyLower p.name) q ||
    (match p.description with
     | none => false
     | some d => pyStrContains (pyLower d) q)

/-- Category selection of `EcommerceDemo.browse_products`: all products
when `category_id` is `None`, else the products listed (by index) under
`self._products_in_category[category_id]`, raising `IndexError` on
unknown ids. -/
def browse_category_selection (ec : EcommerceDemoState) (category_id : Option Int) :
    Except PyError (List Product) :=
  match category_id with
  | none => Except.ok ec.products
  | some cid =>
      match pyListGet ec.products_in_category cid with
      | Except.error e => Except.error e
      | Except.ok product_ids =>
          product_ids.mapM (fun pid => pyListGet ec.products pid)

/-- `EcommerceDemo.browse_products(q, category_id, page_num, page_size)`.
Faithful to the source: category selection first, then the early
return for an empty selection — which stores the raw caller
`page_size` in the page — then the query filter, then pagination
(`page_size` of `0`/`None` means everything on page 1, with
`page_size` normalised to `len(self._products)`). -/
def browse_products (ec : EcommerceDemoState) (q : Option String)
    (category_id : Option Int) (page_num : Int) (page_size : Option Int) :
    Except PyError ProductSearchResultsPage :=
  match browse_category_selection ec category_id with
  | Except.error e => Except.error e
  | Except.ok found_products =>
      if found_products.length = 0 then
        Except.ok { products := found_products, page_num := 1,
                    page_size := page_size, total := 0 }
      else
        let found_products :=
          match q with
          | none => found_products
          | some qs => found_products.filter (queryMatches (pyLower qs))
        let total : Int := (found_products.length : Int)
        if page_size ≠ some 0 ∧ page_size ≠ none then
          let ps : Int := page_size.getD 0
          Except.ok { products := pySlice found_products (ps * (page_num - 1)) (ps * page_num)
                      page_num := page_num, page_size := page_size, total := total }
        else
          Except.ok { products := if page_num > 1 then [] else found_products
                      page_num := page_num
                      page_size := some (ec.products.length : Int)
                      total := total }

/-! ## Bot handlers (`EcommerceTelegramBot`) -/

/-- `telegram.LabeledPrice`.  The source passes a `Decimal` as `amount`
(`item_total * 100`), so the amount is modelled as `ℚ`. -/
structure LabeledPrice where
  label : String
  amount : Rat
  deriving DecidableEq, Repr

/-- Outcome of `_pay_now`. -/
inductive PayNowResult where
  | emptyCartMessage
  | invoiceSent (prices : List LabeledPrice)
  | raised (e : PyError)
  deriving DecidableEq, Repr

/-- `EcommerceTelegramBot._pay_now`, after the empty-cart guard
(`cart.get_num_products() == 0` replies and returns without an
invoice).  The price loop is `for item in cart:` where `cart` is the
`ShoppingCartDemo` object itself; the class defines neither `__iter__`
nor `__getitem__` (only an `async def __aiter__`, which the synchronous
`for` statement does not use), so the statement raises
`TypeError` (ShoppingCartDemo object is not iterable) before any
`LabeledPrice` is built.  (Even were the cart iterable, the body reads
`item.price`, an attribute `CartItem` does not define — its field is
`unit_price` — which would raise `AttributeError` on the first
iteration; and the computed amount `item.quantity * Decimal(price) * 100`
applies no discount and no rounding.) -/
def pay_now (items : List CartItem) : PayNowResult :=
  if get_num_products items = 0 then PayNowResult.emptyCartMessage
  else PayNowResult.raised (PyError.typeError "ShoppingCartDemo object is not iterable")

/-- Modelled from the spec (section 4.1): `line_total(unit_price,
quantity, discount)` is `quantity × unit_price × (1 − discount)` if a
discount is present, else `quantity × unit_price`. -/
def spec_line_total (unit_price : Rat) (quantity : Int) (discount : Option Rat) : Rat :=
  match discount with
  | some d => quantity * unit_price * (1 - d)
  | none => quantity * unit_price

/-- Modelled from the spec (invoice construction): one amount per cart
line, `amount_in_minor_units = round(line_total × 100)`. -/
def spec_invoice_amounts (items : List CartItem) : List Int :=
  items.map (fun it => pyRound (spec_line_total it.unit_price it.quantity it.discount * 100))

/-- The answer `_pre_checkout_query` sends back. -/
structure PreCheckoutAnswer where
  ok : Bool
  error_message : Option String
  deriving DecidableEq, Repr

/-- `EcommerceTelegramBot._pre_checkout_query`: answers `ok=False` with
"Price mismatch" when the reported `total_amount` differs from the sum
of the cached `prices` amounts, else `ok=True`.  The handler performs
no cart operation, so the cart item list is passed through unchanged. -/
def pre_checkout_query_handler (prices : List LabeledPrice) (total_amount : Int)
    (cart_items : List CartItem) : PreCheckoutAnswer × List CartItem :=
  if (total_amount : Rat) ≠ (prices.map (fun p => p.amount)).sum then
    ({ ok := false, error_message := some "Price mismatch" }, cart_items)
  else
    ({ ok := true, error_message := none }, cart_items)

/-- Outcome of `_add_to_cart` (the part after payload parsing). -/
inductive AddToCartOutcome where
  | warnedNoVariant
  | added (item : CartItem)
  deriving DecidableEq, Repr

/-- `EcommerceTelegramBot._add_to_cart` after payload parsing: fetch the
product (demo backend raises `IndexError` on unknown ids); when the
product has variants and no `variant_id` was supplied, log a warning
and return without touching the cart; when it has variants and a
`variant_id` was supplied, build `" (" + variant_title + ")"`, which
raises `TypeError` when `get_variant_title` returns `None`; otherwise
call `cart.add_product(product_id, variant_id)` with quantity 1. -/
def add_to_cart_handler (products : List Product) (items : List CartItem)
    (product_id : Int) (variant_id : Option Int) :
    Except PyError (AddToCartOutcome × List CartItem) :=
  match get_product products product_id with
  | Except.error e => Except.error e
  | Except.ok product =>
      let proceed : Except PyError (AddToCartOutcome × List CartItem) :=
        match add_product products items product_id variant_id 1 with
        | Except.error e => Except.error e
        | Except.ok (item, items') => Except.ok (AddToCartOutcome.added item, items')
      if product.has_variants then
        match variant_id with
        | none => Except.ok (AddToCartOutcome.warnedNoVariant, items)
        | some vid =>
            match product.get_variant_title vid with
            | none => Except.error (PyError.typeError "can not concatenate str and NoneType")
            | some _ => proceed
      else proceed

/-! ## Whole-store state, for the C8 frame property -/

/-- The catalog together with the cart item list of one user. -/
structure StoreState where
  products : List Product
  cart_items : List CartItem
  deriving Repr

/-- `cart.add_product` as a transition on the whole-store state (on a
Python exception the cart is left as it was). -/
def state_add_product (s : StoreState) (product_id : Int) (variant_id : Option Int)
    (quantity : Int) : StoreState :=
  match add_product s.products s.cart_items product_id variant_id quantity with
  | Except.ok (_, items') => { s with cart_items := items' }
  | Except.error _ => s

/-- An arbitrary in-place mutation of every catalog `Product` (covers
price changes, discount changes, …) that leaves the cart alone — the
source keeps the `CartItem` list of the cart disjoint from the
catalog `Product` objects, whose fields were copied at add time. -/
def update_catalog (s : StoreState) (f : Product → Product) : StoreState :=
  { s with products := s.products.map f }

/-! ## Cart-operation sequences, for C3 -/

/-- One call of a single-key `add_product`/`remove_product` sequence. -/
inductive CartOp where
  | add (quantity : Int)
  | remove (quantity : Int)
  deriving DecidableEq, Repr

/-- The quantity argument of a call. -/
def CartOp.qty : CartOp → Int
  | .add q => q
  | .remove q => q

/-- Run one call against the item list (the fixed key `(product_id,
variant_id)` is supplied once for the whole sequence). -/
def apply_cart_op (products : List Product) (product_id : Int) (variant_id : Option Int)
    (items : List CartItem) : CartOp → List CartItem
  | .add q =>
      match add_product products items product_id variant_id q with
      | Except.ok (_, items') => items'
      | Except.error _ => items
  | .remove q => (remove_product items product_id variant_id q).2

/-- Run a sequence of calls left to right. -/
def run_cart_ops (products : List Product) (product_id : Int) (variant_id : Option Int) :
    List CartItem → List CartOp → List CartItem
  | items, [] => items
  | items, op :: ops =>
      run_cart_ops products product_id variant_id
        (apply_cart_op products product_id variant_id items op) ops

/-- Net quantity of the line of the key after a sequence, as the code
computes it: an add of `q` adds `q`; a removal of `q` zeroes the line
when its quantity is `≤ q` (the overshoot is discarded) and subtracts
`q` otherwise. -/
def net_quantity : Int → List CartOp → Int
  | n, [] => n
  | n, CartOp.add q :: ops => net_quantity (n + q) ops
  | n, CartOp.remove q :: ops => net_quantity (if n ≤ q then 0 else n - q) ops

/-- Sum of the added quantities of a sequence. -/
def total_added : List CartOp → Int
  | [] => 0
  | CartOp.add q :: ops => q + total_added ops
  | CartOp.remove _ :: ops => total_added ops

/-- Sum of the removed quantities of a sequence. -/
def total_removed : List CartOp → Int
  | [] => 0
  | CartOp.add _ :: ops => total_removed ops
  | CartOp.remove q :: ops => q + total_removed ops

/-- The cart line `add_product` snapshots for product `p` under key
`(product_id, variant_id)` with quantity `n`. -/
def snapshot_item (p : Product) (product_id : Int) (variant_id : Option Int)
    (n : Int) : CartItem :=
  { product_id := product_id
    name := p.name
    unit_price := p.price
    quantity := n
    discount := p.discount
    variant_id := variant_id
    variant_title :=
      match variant_id with
      | none => none
      | some vid => p.get_variant_title vid }

/-! ## Concrete data used by witnesses and counterexamples -/

/-- A variant-free catalog product with the given id and price. -/
def mkProduct (i : Int) (price : Rat) : Product :=
  { id := i, name := "Product", category_id := 0, price := price, stock := 1,
    description := none, discount := none, variants := none, image_urls := none,
    is_digital_product := false }

/-- The `EcommerceDemo.categories` class attribute, transcribed. -/
def demoCategories : List ProductCategory :=
  [⟨0, "Electronics", none, none, some [4, 5]⟩,
   ⟨1, "Clothing", none, none, some [6, 7, 8]⟩,
   ⟨2, "Books", none, none, some [9, 10]⟩,
   ⟨3, "Home & Kitchen", none, none, none⟩,
   ⟨4, "Laptops", some 0, none, none⟩,
   ⟨5, "Smartphones", some 0, none, none⟩,
   ⟨6, "T-shirts", some 1, none, none⟩,
   ⟨7, "Jeans", some 1, none, none⟩,
   ⟨8, "Caps", some 1, none, none⟩,
   ⟨9, "Fiction", some 2, none, none⟩,
   ⟨10, "Non-fiction", some 2, none, none⟩]

/-- A catalog state with exactly 12 products. -/
def c6_state : EcommerceDemoState :=
  { products := (List.range 12).map (fun i => mkProduct i 1),
    products_in_category := [] }

/-- A product that has one variant. -/
def c4_product : Product :=
  { id := 0, name := "Product 0", category_id := 0, price := 5, stock := 1,
    description := none, discount := none,
    variants := some [⟨0, "Variant 0", 1, none⟩],
    image_urls := none, is_digital_product := false }

/-- The line `add_product` creates for `c4_product` with no variant id. -/
def c4_item : CartItem :=
  { product_id := 0, name := "Product 0", unit_price := 5, quantity := 1,
    discount := none, variant_id := none, variant_title := none }

/-- One cart line with a 50% discount. -/
def c1_item : CartItem :=
  { product_id := 7, name := "Product 7", unit_price := 10, quantity := 1,
    discount := some (1/2), variant_id := none, variant_title := none }

/-- A catalog whose product at index 7 costs 10.00 with no discount. -/
def c8_products : List Product :=
  List.replicate 7 (mkProduct 0 1) ++ [mkProduct 7 10]

/-- Store state after adding product 7 twice to an empty cart. -/
def c8_state2 : StoreState :=
  state_add_product (state_add_product ⟨c8_products, []⟩ 7 none 1) 7 none 1

/-- The single cart line of `c8_state2`. -/
def c8_cart_item : CartItem :=
  { product_id := 7, name := "Product", unit_price := 10, quantity := 2,
    discount := none, variant_id := none, variant_title := none }

/-! ## Theorems -/

/-- C1 (code_bug evidence): for every cart the empty-cart guard of
`_pay_now` does not stop (its product count is nonzero), the handler
raises `TypeError` — the loop `for item in cart` iterates the cart
object, which is not iterable — so no invoice with the per-line
amounts `round(line_total × 100)` is ever produced. -/
theorem pay_now_raises_on_nonempty_cart (items : List CartItem)
    (h : get_num_products items ≠ 0) :
    pay_now items =
      PayNowResult.raised (PyError.typeError "ShoppingCartDemo object is not iterable") := by
  unfold pay_now
  rw [if_neg h]

/-- C1 witness: a one-line cart (quantity 1, unit price 10, discount
0.5) passes the guard and makes `_pay_now` raise, while the invoice
amounts the spec prescribes for it are `[500]`. -/
theorem pay_now_raises_on_nonempty_cart_witness :
    get_num_products [c1_item] ≠ 0 ∧
    pay_now [c1_item] =
      PayNowResult.raised (PyError.typeError "ShoppingCartDemo object is not iterable") ∧
    spec_invoice_amounts [c1_item] = [500] := by
  refine ⟨by decide, pay_now_raises_on_nonempty_cart [c1_item] (by decide), ?_⟩
  norm_num [spec_invoice_amounts, spec_line_total, c1_item, pyRound, ratFloor]

/-- C2: the pre-checkout handler accepts exactly when the reported
total equals the sum of the cached invoice amounts, it never touches
the cart, and on a mismatch it answers `ok=False` with the
price-mismatch message. -/
theorem pre_checkout_accept_iff_cached_sum (prices : List LabeledPrice)
    (total_amount : Int) (cart_items : List CartItem) :
    ((pre_checkout_query_handler prices total_amount cart_items).1.ok = true ↔
      (total_amount : Rat) = (prices.map (fun p => p.amount)).sum) ∧
    (pre_checkout_query_handler prices total_amount cart_items).2 = cart_items ∧
    ((total_amount : Rat) ≠ (prices.map (fun p => p.amount)).sum →
      (pre_checkout_query_handler prices total_amount cart_items).1 =
        { ok := false, error_message := some "Price mismatch" }) := by
  unfold pre_checkout_query_handler
  by_cases h : (total_amount : Rat) = (prices.map (fun p => p.amount)).sum
  · simp [h]
  · simp [h]

/-- C2 witness: cached amounts 999 and 1000; a report of 1999 is
accepted, 2000 is rejected with the price-mismatch message and the
cart is left as it was. -/
theorem pre_checkout_accept_iff_cached_sum_witness :
    (pre_checkout_query_handler [⟨"a", 999⟩, ⟨"b", 1000⟩] 1999 [c1_item]).1.ok = true ∧
    (pre_checkout_query_handler [⟨"a", 999⟩, ⟨"b", 1000⟩] 2000 [c1_item]).1 =
      { ok := false, error_message := some "Price mismatch" } ∧
    (pre_checkout_query_handler [⟨"a", 999⟩, ⟨"b", 1000⟩] 2000 [c1_item]).2 = [c1_item] := by
  refine ⟨?_, ?_, ?_⟩
  · exact (pre_checkout_accept_iff_cached_sum [⟨"a", 999⟩, ⟨"b", 1000⟩] 1999 [c1_item]).1.mpr
      (by simp; norm_num)
  · exact (pre_checkout_accept_iff_cached_sum [⟨"a", 999⟩, ⟨"b", 1000⟩] 2000 [c1_item]).2.2
      (by simp; norm_num)
  · exact (pre_checkout_accept_iff_cached_sum [⟨"a", 999⟩, ⟨"b", 1000⟩] 2000 [c1_item]).2.1

/-- C5: `remove_product` returns the not-found signal and leaves the
cart unchanged when no line matches; deletes the line and returns the
removed signal when its quantity is at most the requested one; and
otherwise decrements the line in place and returns the updated line. -/
theorem remove_product_three_cases (items : List CartItem) (product_id : Int)
    (variant_id : Option Int) (quantity : Int) :
    (find_item_by_product_id items product_id variant_id = none →
      remove_product items product_id variant_id quantity =
        (RemoveResult.notFoundSignal, items)) ∧
    (∀ i item, find_item_by_product_id items product_id variant_id = some (i, item) →
      item.quantity ≤ quantity →
      remove_product items product_id variant_id quantity =
        (RemoveResult.removedSignal, items.eraseIdx i)) ∧
    (∀ i item, find_item_by_product_id items product_id variant_id = some (i, item) →
      quantity < item.quantity →
      remove_product items product_id variant_id quantity =
        (RemoveResult.updatedItem { item with quantity := item.quantity - quantity },
          items.set i { item with quantity := item.quantity - quantity })) := by
  refine ⟨?_, ?_, ?_⟩
  · intro h
    unfold remove_product
    rw [h]
  · intro i item h hle
    unfold remove_product
    rw [h]
    simp [hle]
  · intro i item h hlt
    have h1 : ¬ item.quantity ≤ quantity := by omega
    have h2 : item.quantity - quantity ≠ 0 := by omega
    unfold remove_product
    rw [h]
    simp [h1, h2]

/-- C5 witness: on the cart `[c4_item]` (quantity 1): removing an
absent product returns the not-found signal, removing quantity 1
deletes the line and returns the removed signal, and on a
quantity-3 line removing 1 returns the decremented line. -/
theorem remove_product_three_cases_witness :
    remove_product [c4_item] 9 none 1 = (RemoveResult.notFoundSignal, [c4_item]) ∧
    remove_product [c4_item] 0 none 1 = (RemoveResult.removedSignal, []) ∧
    remove_product [{ c4_item with quantity := 3 }] 0 none 1 =
      (RemoveResult.updatedItem { c4_item with quantity := 2 },
        [{ c4_item with quantity := 2 }]) := by
  refine ⟨?_, ?_, ?_⟩
  · exact (remove_product_three_cases [c4_item] 9 none 1).1 rfl
  · exact (remove_product_three_cases [c4_item] 0 none 1).2.1 0 c4_item rfl (by decide)
  · exact (remove_product_three_cases [{ c4_item with quantity := 3 }] 0 none 1).2.2 0
      { c4_item with quantity := 3 } rfl (by decide)

/-- Auxiliary: the find loop succeeds exactly when some item of the
list matches both keys. -/
lemma find_item_aux_isSome_iff (product_id : Int) (variant_id : Option Int)
    (items : List CartItem) : ∀ i : Nat,
    ((find_item_aux product_id variant_id i items).isSome = true ↔
      ∃ it ∈ items, it.product_id = product_id ∧ it.variant_id = variant_id) := by
  induction items with
  | nil => intro i; simp [find_item_aux]
  | cons it rest ih =>
      intro i
      by_cases h : it.product_id = product_id ∧ it.variant_id = variant_id
      · simp [find_item_aux, h]
      · simp only [find_item_aux, if_neg h, ih (i + 1), List.mem_cons]
        constructor
        · intro ⟨x, hx, hp⟩
          exact ⟨x, Or.inr hx, hp⟩
        · intro ⟨x, hx, hp⟩
          rcases hx with rfl | hx
          · exact absurd hp h
          · exact ⟨x, hx, hp⟩

/-- C9: `has_product_by_id` holds exactly when the cart has a line with
the given product id and `variant_id = None` (because the lookup is
made with the default `variant_id=None`); `has` delegates to it for
both a `Product` and an `int`; and a cart in which every line of that
product carries a variant id reports the product as absent. -/
theorem has_product_by_id_variant_none_iff (items : List CartItem) (product_id : Int) :
    (has_product_by_id items product_id = true ↔
      ∃ it ∈ items, it.product_id = product_id ∧ it.variant_id = none) ∧
    (∀ p : Product, cart_has items (Sum.inl p) = has_product_by_id items p.id) ∧
    (∀ pid : Int, cart_has items (Sum.inr pid) = has_product_by_id items pid) ∧
    ((∀ it ∈ items, it.product_id = product_id → it.variant_id ≠ none) →
      has_product_by_id items product_id = false) := by
  have key := find_item_aux_isSome_iff product_id none items 0
  refine ⟨key, fun p => rfl, fun pid => rfl, fun hall => ?_⟩
  by_cases hb : has_product_by_id items product_id = true
  · obtain ⟨it, hit, hpid, hvid⟩ := key.mp hb
    exact absurd hvid (hall it hit hpid)
  · simpa using hb

/-- C9 witness: a cart holding only a variant line of product 0
reports product 0 as absent, and the `has` entry points agree. -/
theorem has_product_by_id_variant_none_iff_witness :
    has_product_by_id [{ c4_item with variant_id := some 0, variant_title := some "Variant 0" }] 0 =
      false ∧
    cart_has [{ c4_item with variant_id := some 0, variant_title := some "Variant 0" }]
      (Sum.inl c4_product) = false := by
  constructor
  · exact (has_product_by_id_variant_none_iff
      [{ c4_item with variant_id := some 0, variant_title := some "Variant 0" }] 0).2.2.2
      (by decide)
  · exact ((has_product_by_id_variant_none_iff
      [{ c4_item with variant_id := some 0, variant_title := some "Variant 0" }] 0).2.1
      c4_product).trans
      ((has_product_by_id_variant_none_iff
        [{ c4_item with variant_id := some 0, variant_title := some "Variant 0" }] 0).2.2.2
        (by decide))

/-- C7 (counterexample): on the transcribed demo catalog,
`get_categories(None)` returns the whole category list, which contains
the category Laptops whose `parent_id` is 0 — not only the top-level
categories, contradicting the claim. -/
theorem get_categories_root_counterexample :
    get_categories demoCategories none = demoCategories ∧
    (⟨4, "Laptops", some 0, none, none⟩ : ProductCategory) ∈ get_categories demoCategories none ∧
    (⟨4, "Laptops", some 0, none, none⟩ : ProductCategory).parent_id ≠ none := by
  exact ⟨rfl, by decide, by decide⟩

/-- C7 (amended): `get_categories(None)` returns the entire category
list unfiltered, and `get_categories(parent_id)` returns exactly the
direct children (non-recursively): membership in the result is
membership in the list together with a matching `parent_id`. -/
theorem get_categories_root_and_children (categories : List ProductCategory) (pid : Int) :
    get_categories categories none = categories ∧
    (∀ c : ProductCategory, c ∈ get_categories categories (some pid) ↔
      c ∈ categories ∧ c.parent_id = some pid) := by
  refine ⟨rfl, fun c => ?_⟩
  simp [get_categories, List.mem_filter]

/-- C10: when the selected category has an empty product set,
`browse_products` returns early with a page that stores the raw caller
`page_size`; calling `num_pages` (or `has_next`, which evaluates it) on
that page computes `total // page_size` and raises — `ZeroDivisionError`
for `page_size=0`, `TypeError` for `page_size=None` — instead of
returning a value. -/
theorem empty_category_page_raw_page_size (ec : EcommerceDemoState) (q : Option String)
    (cid : Int) (page_num : Int) (page_size : Option Int)
    (h : pyListGet ec.products_in_category cid = Except.ok []) :
    browse_products ec q (some cid) page_num page_size =
      Except.ok { products := [], page_num := 1, page_size := page_size, total := 0 } ∧
    (page_size = some 0 →
      (ProductSearchResultsPage.mk [] 1 page_size 0).num_pages =
        Except.error PyError.zeroDivisionError ∧
      (ProductSearchResultsPage.mk [] 1 page_size 0).has_next =
        Except.error PyError.zeroDivisionError) ∧
    (page_size = none →
      (ProductSearchResultsPage.mk [] 1 page_size 0).num_pages =
        Except.error (PyError.typeError "unsupported operand types for floor division: int and NoneType") ∧
      (ProductSearchResultsPage.mk [] 1 page_size 0).has_next =
        Except.error (PyError.typeError "unsupported operand types for floor division: int and NoneType")) := by
  have hsel : browse_category_selection ec (some cid) = Except.ok [] := by
    simp only [browse_category_selection]
    rw [h]
    rfl
  refine ⟨?_, ?_, ?_⟩
  · unfold browse_products
    rw [hsel]
    rfl
  · rintro rfl
    exact ⟨rfl, rfl⟩
  · rintro rfl
    exact ⟨rfl, rfl⟩

/-- C10 witness: a catalog whose category 0 has no products, browsed
with `page_size=0` and with `page_size=None`. -/
theorem empty_category_page_raw_page_size_witness :
    browse_products ⟨[], [[]]⟩ none (some 0) 1 (some 0) =
      Except.ok { products := [], page_num := 1, page_size := some 0, total := 0 } ∧
    (ProductSearchResultsPage.mk [] 1 (some 0) 0).num_pages =
      Except.error PyError.zeroDivisionError ∧
    browse_products ⟨[], [[]]⟩ none (some 0) 2 none =
      Except.ok { products := [], page_num := 1, page_size := none, total := 0 } ∧
    (ProductSearchResultsPage.mk [] 1 none 0).num_pages =
      Except.error (PyError.typeError "unsupported operand types for floor division: int and NoneType") := by
  have h1 := empty_category_page_raw_page_size ⟨[], [[]]⟩ none 0 1 (some 0) rfl
  have h2 := empty_category_page_raw_page_size ⟨[], [[]]⟩ none 0 2 none rfl
  exact ⟨h1.1, (h1.2.1 rfl).1, h2.1, (h2.2.2 rfl).1⟩

/-- C4 (counterexample): the cart engine itself performs no variant
check — `ShoppingCartDemo.add_product` called on the variant-bearing
`c4_product` with `variant_id=None` signals nothing and appends a new
line (with `variant_id=None`), contradicting the claim that the engine
rejects the call and creates no line. -/
theorem add_product_missing_variant_counterexample :
    c4_product.has_variants = true ∧
    add_product [c4_product] [] 0 none 1 = Except.ok (c4_item, [c4_item]) ∧
    get_num_items [c4_item] = 1 := by
  exact ⟨rfl, rfl, rfl⟩

/-- C4 (amended): the missing-variant rejection is enforced one layer
up, in the bot handler `_add_to_cart`: for every catalog product with
variants, invoking the handler without a variant id only logs a
warning and returns, leaving the cart unchanged — no line is created
because `cart.add_product` is never reached. -/
theorem add_to_cart_rejects_missing_variant (products : List Product)
    (items : List CartItem) (product_id : Int) (p : Product)
    (hp : get_product products product_id = Except.ok p)
    (hv : p.has_variants = true) :
    add_to_cart_handler products items product_id none =
      Except.ok (AddToCartOutcome.warnedNoVariant, items) := by
  unfold add_to_cart_handler
  rw [hp]
  simp [hv]

/-- C4 witness: the handler on `c4_product` with no variant id. -/
theorem add_to_cart_rejects_missing_variant_witness :
    add_to_cart_handler [c4_product] [] 0 none =
      Except.ok (AddToCartOutcome.warnedNoVariant, []) := by
  exact add_to_cart_rejects_missing_variant [c4_product] [] 0 c4_product rfl rfl

/-- C6 (counterexample): on a 12-product catalog browsed with
`page_size=5`, page 3 holds 2 items and `has_previous=True` as the
claim says, but `has_next` evaluates to `True` — `num_pages` is
`12 // 5 = 2` and `3 ≠ 2` — not the claimed `False`. -/
theorem pagination_page3_has_next_counterexample :
    (browse_products c6_state none none 3 (some 5)).map
        (fun pg => (pg.products.length, pg.has_previous, pg.has_next)) =
      Except.ok (2, true, Except.ok true) ∧
    (browse_products c6_state none none 3 (some 5)).map
        (fun pg => pg.has_next) ≠ Except.ok (Except.ok false) := by
  exact ⟨by decide, by decide⟩

/-- C6 (amended): with 12 matching products and `page_size=5`,
`num_pages = 12 // 5 = 2`; page 1 has 5 items, `has_previous=False`,
`has_next=True`; page 3 has 2 items, `has_previous=True`, and
`has_next=True` (because `3 ≠ num_pages`); page 4 is empty. -/
theorem pagination_twelve_products_pages :
    (browse_products c6_state none none 1 (some 5)).map
        (fun pg => (pg.products.length, pg.has_previous, pg.has_next)) =
      Except.ok (5, false, Except.ok true) ∧
    (browse_products c6_state none none 3 (some 5)).map
        (fun pg => (pg.products.length, pg.has_previous, pg.has_next)) =
      Except.ok (2, true, Except.ok true) ∧
    (browse_products c6_state none none 4 (some 5)).map
        (fun pg => (pg.products.length, pg.page_size, pg.total)) =
      Except.ok (0, some 5, 12) ∧
    (browse_products c6_state none none 1 (some 5)).map
        (fun pg => pg.num_pages) = Except.ok (Except.ok 2) := by
  refine ⟨by decide, by decide, by decide, by decide⟩

/-- C8: mutating the catalog (any per-product field change, e.g. a
price or discount change) leaves the cart lines — hence their
snapshotted `unit_price`/`discount` and `calculate_total()` — exactly
as they were; concretely, adding the price-10 product 7 twice gives a
total of 20.00, and it is still 20.00 after a 0.10 discount is set on
every catalog entry. -/
theorem catalog_mutation_cart_frame :
    (∀ (s : StoreState) (f : Product → Product),
      (update_catalog s f).cart_items = s.cart_items ∧
      calculate_total (update_catalog s f).cart_items = calculate_total s.cart_items) ∧
    c8_state2.cart_items = [c8_cart_item] ∧
    calculate_total c8_state2.cart_items = 20 ∧
    (update_catalog c8_state2 (fun p => { p with discount := some (1/10) })).cart_items =
      [c8_cart_item] ∧
    calculate_total (update_catalog c8_state2
        (fun p => { p with discount := some (1/10) })).cart_items = 20 := by
  have hitems : c8_state2.cart_items = [c8_cart_item] := rfl
  have htot : calculate_total [c8_cart_item] = 20 := by
    simp [calculate_total, calculate_item_total, itemDiscountTruthy, c8_cart_item]
    norm_num
  exact ⟨fun s f => ⟨rfl, rfl⟩, hitems, hitems ▸ htot, hitems, hitems ▸ htot⟩

/-- Invariant of the single-key scenario: the cart is empty with net
quantity zero, or holds exactly the one snapshot line whose quantity
is the (positive) net. -/
def c3_inv (p : Product) (product_id : Int) (variant_id : Option Int)
    (items : List CartItem) (n : Int) : Prop :=
  (n = 0 ∧ items = []) ∨ (0 < n ∧ items = [snapshot_item p product_id variant_id n])

/-- The find loop locates the snapshot line at index 0. -/
lemma find_item_snapshot (p : Product) (product_id : Int) (variant_id : Option Int)
    (n : Int) :
    find_item_by_product_id [snapshot_item p product_id variant_id n] product_id variant_id =
      some (0, snapshot_item p product_id variant_id n) := by
  simp [find_item_by_product_id, find_item_aux, snapshot_item]

/-- One `add_product`/`remove_product` call preserves the single-line
invariant, updating the net quantity as `net_quantity` prescribes. -/
lemma cart_op_step (products : List Product) (product_id : Int) (variant_id : Option Int)
    (p : Product) (hp : get_product products product_id = Except.ok p)
    (op : CartOp) (hq : 0 < op.qty) (items : List CartItem) (n : Int)
    (hinv : c3_inv p product_id variant_id items n) :
    c3_inv p product_id variant_id (apply_cart_op products product_id variant_id items op)
      (net_quantity n [op]) := by
  cases op with
  | add q =>
      simp only [CartOp.qty] at hq
      rcases hinv with ⟨hn, rfl⟩ | ⟨hn, rfl⟩
      · subst hn
        right
        refine ⟨by simp only [net_quantity]; omega, ?_⟩
        show apply_cart_op products product_id variant_id [] (CartOp.add q) = _
        simp only [apply_cart_op, add_product, find_item_by_product_id, find_item_aux]
        rw [show get_product products product_id = Except.ok p from hp]
        simp [net_quantity, snapshot_item]
      · right
        refine ⟨by simp only [net_quantity]; omega, ?_⟩
        show apply_cart_op products product_id variant_id _ (CartOp.add q) = _
        simp only [apply_cart_op, add_product, find_item_snapshot]
        simp [net_quantity, snapshot_item]
  | remove q =>
      simp only [CartOp.qty] at hq
      rcases hinv with ⟨hn, rfl⟩ | ⟨hn, rfl⟩
      · subst hn
        left
        refine ⟨?_, ?_⟩
        · simp [net_quantity]
          omega
        · show apply_cart_op products product_id variant_id [] (CartOp.remove q) = _
          simp [apply_cart_op, remove_product, find_item_by_product_id, find_item_aux]
      · by_cases hle : n ≤ q
        · left
          refine ⟨by simp [net_quantity, hle], ?_⟩
          show apply_cart_op products product_id variant_id _ (CartOp.remove q) = _
          simp only [apply_cart_op, remove_product, find_item_snapshot]
          simp [snapshot_item, hle]
        · right
          refine ⟨by simp [net_quantity, hle]; omega, ?_⟩
          show apply_cart_op products product_id variant_id _ (CartOp.remove q) = _
          simp only [apply_cart_op, remove_product, find_item_snapshot]
          have hnz : n - q ≠ 0 := by omega
          simp [snapshot_item, hle, hnz, net_quantity]

/-- Peeling one call off `net_quantity`. -/
lemma net_quantity_cons (n : Int) (op : CartOp) (ops : List CartOp) :
    net_quantity n (op :: ops) = net_quantity (net_quantity n [op]) ops := by
  cases op <;> rfl

/-- Any single-key call sequence preserves the invariant. -/
lemma cart_ops_inv (products : List Product) (product_id : Int) (variant_id : Option Int)
    (p : Product) (hp : get_product products product_id = Except.ok p)
    (ops : List CartOp) (hq : ∀ op ∈ ops, 0 < op.qty) :
    ∀ items n, c3_inv p product_id variant_id items n →
      c3_inv p product_id variant_id (run_cart_ops products product_id variant_id items ops)
        (net_quantity n ops) := by
  induction ops with
  | nil => intro items n h; exact h
  | cons op ops ih =>
      intro items n h
      rw [net_quantity_cons]
      exact ih (fun o ho => hq o (List.mem_cons_of_mem op ho))
        (apply_cart_op products product_id variant_id items op)
        (net_quantity n [op])
        (cart_op_step products product_id variant_id p hp op
          (hq op (List.mem_cons_self op ops)) items n h)

/-- C3 (amended): for every sequence of positive-quantity
`add_product`/`remove_product` calls on one key starting from an empty
cart, the cart ends with at most one line for that key — none when the
running net quantity (which floors at zero at every removal, the
overshoot being discarded) is zero, else exactly the snapshot line
carrying that net as its quantity.  The global
`total added − total removed` of the original claim does not govern the
result (see the counterexample). -/
theorem cart_ops_single_line_floored_net (products : List Product) (product_id : Int)
    (variant_id : Option Int) (p : Product) (ops : List CartOp)
    (hp : get_product products product_id = Except.ok p)
    (hq : ∀ op ∈ ops, 0 < op.qty) :
    (net_quantity 0 ops = 0 ∧ run_cart_ops products product_id variant_id [] ops = []) ∨
    (0 < net_quantity 0 ops ∧
      run_cart_ops products product_id variant_id [] ops =
        [snapshot_item p product_id variant_id (net_quantity 0 ops)]) := by
  exact cart_ops_inv products product_id variant_id p hp ops hq [] 0 (Or.inl ⟨rfl, rfl⟩)

/-- C3 witness: the sequence add 2, remove 1 on product 0 of a
one-product catalog ends with the single snapshot line of quantity 1. -/
theorem cart_ops_single_line_floored_net_witness :
    (net_quantity 0 [CartOp.add 2, CartOp.remove 1] = 0 ∧
      run_cart_ops [mkProduct 0 1] 0 none [] [CartOp.add 2, CartOp.remove 1] = []) ∨
    (0 < net_quantity 0 [CartOp.add 2, CartOp.remove 1] ∧
      run_cart_ops [mkProduct 0 1] 0 none [] [CartOp.add 2, CartOp.remove 1] =
        [snapshot_item (mkProduct 0 1) 0 none
          (net_quantity 0 [CartOp.add 2, CartOp.remove 1])]) := by
  exact cart_ops_single_line_floored_net [mkProduct 0 1] 0 none (mkProduct 0 1)
    [CartOp.add 2, CartOp.remove 1] rfl (by decide)

/-- C3 (counterexample): for the quantity-1 sequence add, remove,
remove, add, the total added (2) minus the total removed (2) is 0 — the
claim then demands the line be absent — yet the cart ends with the line
present (quantity 1), because the second removal hit an empty cart and
its quantity was not carried as a debt. -/
theorem cart_ops_global_net_counterexample :
    total_added [CartOp.add 1, CartOp.remove 1, CartOp.remove 1, CartOp.add 1] -
      total_removed [CartOp.add 1, CartOp.remove 1, CartOp.remove 1, CartOp.add 1] ≤ 0 ∧
    find_item_by_product_id
      (run_cart_ops [mkProduct 0 1] 0 none []
        [CartOp.add 1, CartOp.remove 1, CartOp.remove 1, CartOp.add 1]) 0 none ≠ none := by
  exact ⟨by decide, by decide⟩
